import Mathlib

/-!
Verification of the template MCP server (`template-uv-mcp-server`).

The repository registers three plain functions against an external
protocol runtime (`FastMCP`): one tool (`hello`), one resource
(`template://info` backed by `get_info`), and one prompt
(`greeting_prompt`).  The registered functions are embedded directly
from `src/template_uv_mcp_server/server.py`.  The runtime itself
(registration, listing, dispatch, content wrapping, sessions) is not
part of the repository; it is modelled from the specification's
black-box contract for it.
-/

namespace TemplateMCP

/-- Embeds `hello` from `server.py`: `def hello(name: str = "World") -> str`
returning `f"Hello, {name}!"`.  The default value of the `name`
parameter is part of the source signature. -/
def hello (name : String := "World") : String :=
  "Hello, " ++ name ++ "!"

/-- Embeds `get_info` from `server.py`: a zero-argument function
returning a fixed string. -/
def get_info : String :=
  "This is a template MCP server. Customize it for your needs!"

/-- Embeds `greeting_prompt` from `server.py`:
`def greeting_prompt(name: str) -> str` returning
`f"Please write a friendly greeting for {name}."`. -/
def greeting_prompt (name : String) : String :=
  "Please write a friendly greeting for " ++ name ++ "."

/-- Modelled from the spec: tool/prompt arguments are a JSON object of
string values, here an association list from argument name to value
(`{}` is `[]`, `{"name": s}` is `[("name", s)]`). -/
abbrev Args := List (String × String)

/-- Modelled from the spec: a single item of returned content; the
runtime wraps a `str` return value into one text content item. -/
inductive Content where
  | text (s : String) : Content
deriving DecidableEq, Repr

/-- Modelled from the spec: a role-tagged prompt message, as returned
by `get_prompt`. -/
structure PromptMessage where
  role : String
  content : Content
deriving DecidableEq, Repr

/-- Modelled from the spec: one declared prompt argument, with its
`required` flag as reported by `list_prompts`. -/
structure PromptArgument where
  name : String
  required : Bool
deriving DecidableEq, Repr

/-- Modelled from the spec: a registered tool (`register_tool(name, fn,
description)`): the protocol-visible name, the description taken from
the function's docstring, and the bound callable applied to the
decoded arguments. -/
structure Tool where
  name : String
  description : String
  run : Args → String

/-- Modelled from the spec: a registered resource (`register_resource(uri,
fn, description)`): URI, docstring description, and the zero-argument
reader. -/
structure Resource where
  uri : String
  description : String
  read : Unit → String

/-- Modelled from the spec: a registered prompt (`register_prompt(name,
fn, description, arg_spec)`).  `get` returns `none` when a required
argument is missing (that failure is raised by the runtime, not by the
bound function). -/
structure Prompt where
  name : String
  description : String
  arguments : List PromptArgument
  get : Args → Option (List PromptMessage)

/-- Modelled from the spec: the server object's registration state —
the lists of tools, resources and prompts bound by the decorators. -/
structure ServerState where
  tools : List Tool
  resources : List Resource
  prompts : List Prompt

/-- Modelled from the spec: the `mcp` server instance of `server.py`
after the three decorator registrations run, in source order.  Names,
descriptions and the argument specification are the ones the runtime
derives from the decorated functions: the function name, its
docstring, and one required argument `name` for `greeting_prompt`
(required because it has no default).  The `hello` binding applies the
source function, using its own default when `name` is absent. -/
def mcp : ServerState where
  tools :=
    [{ name := "hello"
       description := "Say hello to someone."
       run := fun args =>
         match args.lookup "name" with
         | some s => hello s
         | none => hello }]
  resources :=
    [{ uri := "template://info"
       description := "Get template information."
       read := fun _ => get_info }]
  prompts :=
    [{ name := "greeting_prompt"
       description := "Generate a greeting prompt."
       arguments := [{ name := "name", required := true }]
       get := fun args =>
         match args.lookup "name" with
         | some s => some [{ role := "user", content := Content.text (greeting_prompt s) }]
         | none => none }]

/-- Modelled from the spec: `session.list_tools()` — each tool's
protocol-visible name and description. -/
def listTools (s : ServerState) : List (String × String) :=
  s.tools.map fun t => (t.name, t.description)

/-- Modelled from the spec: `session.call_tool(name, args)` — look the
tool up by name, apply it, and wrap the returned string in a single
text content item; `none` for an unknown tool name. -/
def callTool (s : ServerState) (name : String) (args : Args) : Option (List Content) :=
  (s.tools.find? fun t => t.name == name).map fun t => [Content.text (t.run args)]

/-- Modelled from the spec: `session.list_resources()` — each
resource's URI and description. -/
def listResources (s : ServerState) : List (String × String) :=
  s.resources.map fun r => (r.uri, r.description)

/-- Modelled from the spec: `session.read_resource(uri)` — look the
resource up by URI and wrap the returned string in a single text
content item; `none` for an unknown URI. -/
def readResource (s : ServerState) (uri : String) : Option (List Content) :=
  (s.resources.find? fun r => r.uri == uri).map fun r => [Content.text (r.read ())]

/-- Modelled from the spec: `session.list_prompts()` — each prompt's
name, description and declared argument list. -/
def listPrompts (s : ServerState) : List (String × String × List PromptArgument) :=
  s.prompts.map fun p => (p.name, p.description, p.arguments)

/-- Modelled from the spec: `session.get_prompt(name, args)` — look the
prompt up by name and render its messages; `none` for an unknown name
or a missing required argument. -/
def getPrompt (s : ServerState) (name : String) (args : Args) :
    Option (List PromptMessage) :=
  (s.prompts.find? fun p => p.name == name).bind fun p => p.get args

/-- Modelled from the spec: the operations a session can issue. -/
inductive Op where
  | listTools
  | callTool (name : String) (args : Args)
  | listResources
  | readResource (uri : String)
  | listPrompts
  | getPrompt (name : String) (args : Args)

/-- Modelled from the spec: the result of one session operation. -/
inductive OpResult where
  | tools (l : List (String × String))
  | toolContent (c : Option (List Content))
  | resources (l : List (String × String))
  | resourceContents (c : Option (List Content))
  | prompts (l : List (String × String × List PromptArgument))
  | promptMessages (m : Option (List PromptMessage))

/-- Modelled from the spec: one session operation against the server,
returning its result together with the (unchanged — the registered
functions touch no state) server state. -/
def step (s : ServerState) (op : Op) : OpResult × ServerState :=
  match op with
  | Op.listTools => (OpResult.tools (listTools s), s)
  | Op.callTool name args => (OpResult.toolContent (callTool s name args), s)
  | Op.listResources => (OpResult.resources (listResources s), s)
  | Op.readResource uri => (OpResult.resourceContents (readResource s uri), s)
  | Op.listPrompts => (OpResult.prompts (listPrompts s), s)
  | Op.getPrompt name args => (OpResult.promptMessages (getPrompt s name args), s)

/-- Modelled from the spec: the server state after a sequence of
session operations. -/
def runOps (s : ServerState) (ops : List Op) : ServerState :=
  ops.foldl (fun st op => (step st op).2) s

theorem step_state (s : ServerState) (op : Op) : (step s op).2 = s := by
  cases op <;> rfl

theorem runOps_id (s : ServerState) (ops : List Op) : runOps s ops = s := by
  induction ops with
  | nil => rfl
  | cons op ops ih =>
    show runOps ((step s op).2) ops = s
    rw [step_state]
    exact ih

end TemplateMCP

namespace TemplateMCP

/-- C1: for every string `s`, calling the tool `hello` with arguments
`[("name", s)]` returns exactly the text `"Hello, " ++ s ++ "!"`. -/
theorem hello_tool_formats_any_name (s : String) :
    callTool mcp "hello" [("name", s)] =
      some [Content.text ("Hello, " ++ s ++ "!")] := by
  rfl

/-- C2: for every string `s`, getting the prompt `greeting_prompt` with
arguments `[("name", s)]` returns exactly one message, of role
`"user"`, with text `"Please write a friendly greeting for " ++ s ++ "."`. -/
theorem greeting_prompt_single_user_message (s : String) :
    getPrompt mcp "greeting_prompt" [("name", s)] =
      some [{ role := "user"
              content := Content.text ("Please write a friendly greeting for " ++ s ++ ".") }] := by
  rfl

/-- C3: after any sequence of prior operations, reading the resource
`template://info` returns the fixed text and leaves the server state
unchanged. -/
theorem info_resource_fixed_and_pure (ops : List Op) :
    step (runOps mcp ops) (Op.readResource "template://info") =
      (OpResult.resourceContents
        (some [Content.text "This is a template MCP server. Customize it for your needs!"]),
       runOps mcp ops) := by
  rw [runOps_id]
  rfl

/-- C4: calling the tool `hello` with empty arguments returns the text
`"Hello, World!"`, and this equals the result of calling it with
`[("name", "World")]`, because the `name` parameter defaults to
`"World"` when omitted. -/
theorem hello_tool_default_world :
    callTool mcp "hello" [] = some [Content.text "Hello, World!"] ∧
    callTool mcp "hello" [] = callTool mcp "hello" [("name", "World")] := by
  exact ⟨rfl, rfl⟩

/-- C5: after any sequence of prior operations, listing tools returns
exactly one tool, named `hello`, with description
`"Say hello to someone."`. -/
theorem list_tools_exactly_hello (ops : List Op) :
    (step (runOps mcp ops) Op.listTools).1 =
      OpResult.tools [("hello", "Say hello to someone.")] := by
  rw [runOps_id]
  rfl

/-- C6: listing prompts returns the prompt `greeting_prompt` with
description `"Generate a greeting prompt."` and exactly one argument,
named `name`, marked required. -/
theorem list_prompts_greeting_prompt :
    listPrompts mcp =
      [("greeting_prompt", "Generate a greeting prompt.",
        [{ name := "name", required := true }])] := by
  rfl

/-- C7: after any sequence of prior operations (hence in every
session), listing resources returns the resource with URI
`template://info` and description `"Get template information."`. -/
theorem list_resources_template_info (ops : List Op) :
    (step (runOps mcp ops) Op.listResources).1 =
      OpResult.resources [("template://info", "Get template information.")] := by
  rw [runOps_id]
  rfl

/-- C8: the registered functions are total on their declared domains:
`hello` returns a string for every name (and for the omitted-name
default), `get_info` returns a string, and `greeting_prompt` returns a
string for every name; consequently a `hello` call with any arguments,
a read of `template://info`, and a `greeting_prompt` request carrying
`name` all succeed. -/
theorem registered_functions_total :
    (∀ s : String, hello s = "Hello, " ++ s ++ "!") ∧
    hello = "Hello, World!" ∧
    get_info = "This is a template MCP server. Customize it for your needs!" ∧
    (∀ s : String, greeting_prompt s = "Please write a friendly greeting for " ++ s ++ ".") ∧
    (∀ args : Args, (callTool mcp "hello" args).isSome = true) ∧
    (readResource mcp "template://info").isSome = true ∧
    (∀ s : String, (getPrompt mcp "greeting_prompt" [("name", s)]).isSome = true) := by
  refine ⟨fun s => rfl, rfl, rfl, fun s => rfl, fun args => rfl, rfl, fun s => rfl⟩

/-- C9: for every string `s`, a `hello` call with empty arguments and
one with `[("name", s)]` each return exactly one content item, and it
is a text item; likewise reading `template://info` yields exactly one
text content item. -/
theorem results_single_text_content (s : String) :
    (∃ t, callTool mcp "hello" [] = some [Content.text t]) ∧
    (∃ t, callTool mcp "hello" [("name", s)] = some [Content.text t]) ∧
    (∃ t, readResource mcp "template://info" = some [Content.text t]) := by
  exact ⟨⟨"Hello, World!", rfl⟩, ⟨"Hello, " ++ s ++ "!", rfl⟩, ⟨get_info, rfl⟩⟩

/-- C10: every operation is deterministic and stateless: issued after
any two (possibly different) operation histories — in particular in
the same or in different sessions — the same operation with the same
arguments returns identical results, and it leaves the server state
exactly as it was. -/
theorem operations_deterministic_stateless (ops1 ops2 : List Op) (op : Op) :
    step (runOps mcp ops1) op = step (runOps mcp ops2) op ∧
    (step (runOps mcp ops1) op).2 = runOps mcp ops1 := by
  rw [runOps_id, runOps_id]
  exact ⟨rfl, step_state mcp op⟩

end TemplateMCP
